import Mathlib

/-!
Verification development for the drone position fusion engine
(files `src/ekf.rs`, `src/processor.rs`, `src/main.rs`).

The EKF core (`ekf.rs`) is embedded over `ℝ` (every `f64` arithmetic value
is modelled as a real number, so the non-finite IEEE values never arise in
the filter math).  The registry / ingress layer (`processor.rs`) stores
latitude and longitude as values of an explicit `F64` type that keeps the
distinction between finite values and the non-finite IEEE values, because
the eviction predicate tests `is_finite`.  The external geodetic library
(`geoconv`, out of scope of the specification) enters the model as an
explicit function parameter of the fusion tick.
-/

namespace Drone

open Matrix

/-- `INIT_POS_STDDEV` from `ekf.rs`. -/
noncomputable def INIT_POS_STDDEV : ℝ := 800

/-- `INIT_VEL_STDDEV` from `ekf.rs`. -/
noncomputable def INIT_VEL_STDDEV : ℝ := 15

/-- `PROCESS_NOISE_STDDEV` from `ekf.rs`. -/
noncomputable def PROCESS_NOISE_STDDEV : ℝ := 5

/-- `MEASUREMENT_STDDEV` from `ekf.rs`. -/
noncomputable def MEASUREMENT_STDDEV : ℝ := 50

/-- `geoconv::Enu`: a local East-North-Up triple in meters. -/
structure Enu where
  east : ℝ
  north : ℝ
  up : ℝ

/-- `Sensor` from `ekf.rs`: ENU position plus measured range. -/
structure Sensor where
  enu : Enu
  dist : ℝ

/-- `Ekf` from `ekf.rs`: state estimate, covariance, the transition and
process-noise factories, and the optional admissible-range cap. -/
structure Ekf where
  x_est : Fin 4 → ℝ
  P_est : Matrix (Fin 4) (Fin 4) ℝ
  F : ℝ → Matrix (Fin 4) (Fin 4) ℝ
  Q : ℝ → Matrix (Fin 4) (Fin 4) ℝ
  max_dist : Option ℝ

/-- The transition-matrix closure `F` built in `Ekf::new`:
the constant-velocity matrix. -/
noncomputable def cvF (dt : ℝ) : Matrix (Fin 4) (Fin 4) ℝ :=
  Matrix.of ![![1, 0, dt, 0], ![0, 1, 0, dt], ![0, 0, 1, 0], ![0, 0, 0, 1]]

/-- The process-noise closure `Q` built in `Ekf::new`:
`q_pos = (PROCESS_NOISE_STDDEV*dt*dt/2)^2`, `q_vel = (PROCESS_NOISE_STDDEV*dt)^2`. -/
noncomputable def cvQ (dt : ℝ) : Matrix (Fin 4) (Fin 4) ℝ :=
  Matrix.diagonal ![(PROCESS_NOISE_STDDEV * dt * dt / 2) ^ 2,
    (PROCESS_NOISE_STDDEV * dt * dt / 2) ^ 2,
    (PROCESS_NOISE_STDDEV * dt) ^ 2,
    (PROCESS_NOISE_STDDEV * dt) ^ 2]

/-- `Ekf::new` from `ekf.rs`. -/
noncomputable def Ekf.new (x y : ℝ) (max_dist : Option ℝ) : Ekf where
  x_est := ![x, y, 0, 0]
  P_est := Matrix.diagonal ![INIT_POS_STDDEV ^ 2, INIT_POS_STDDEV ^ 2,
    INIT_VEL_STDDEV ^ 2, INIT_VEL_STDDEV ^ 2]
  F := cvF
  Q := cvQ
  max_dist := max_dist

/-- `Ekf::predict` from `ekf.rs`: returns `(F*x_est, F*P_est*Fᵀ + Q)`
without touching the state (it takes `&self` in the source). -/
noncomputable def Ekf.predict (e : Ekf) (dt : ℝ) :
    (Fin 4 → ℝ) × Matrix (Fin 4) (Fin 4) ℝ :=
  ((e.F dt).mulVec e.x_est, e.F dt * e.P_est * (e.F dt)ᵀ + e.Q dt)

/-- The sensor-admissibility predicate of `Ekf::update`:
`s.dist > 0.0 && (self.max_dist.is_none() || s.dist <= self.max_dist.unwrap())`. -/
def admissible (md : Option ℝ) (s : Sensor) : Prop :=
  0 < s.dist ∧ ∀ c ∈ md, s.dist ≤ c

open Classical in
/-- The `filtered_sensors` list computed at the top of `Ekf::update`. -/
noncomputable def admissibleFilter (md : Option ℝ) (sensors : List Sensor) :
    List Sensor :=
  sensors.filter fun s => decide (admissible md s)

/-- The negated sensor east coordinate `sx` of `Ekf::update`
(`let (sx, sy) = (-sensor.enu.east…, -sensor.enu.north…)`). -/
noncomputable def sensorSx (s : Sensor) : ℝ := -s.enu.east

/-- The negated sensor north coordinate `sy` of `Ekf::update`. -/
noncomputable def sensorSy (s : Sensor) : ℝ := -s.enu.north

/-- `dist_pred` of `Ekf::update`:
`((px - sx).powi(2) + (py - sy).powi(2)).sqrt().max(1e-6)`. -/
noncomputable def distPred (px py : ℝ) (s : Sensor) : ℝ :=
  max (Real.sqrt ((px - sensorSx s) ^ 2 + (py - sensorSy s) ^ 2)) (1e-6)

/-- The stacked measurement prediction `h_x_pred` of `Ekf::update`. -/
noncomputable def measHx (px py : ℝ) (fs : List Sensor) : Fin fs.length → ℝ :=
  fun i => distPred px py (fs.get i)

/-- The stacked measurement vector `z` of `Ekf::update`. -/
def measZ (fs : List Sensor) : Fin fs.length → ℝ :=
  fun i => (fs.get i).dist

/-- The Jacobian `H` of `Ekf::update`: row `i` is
`[(px - sx)/dist_pred, (py - sy)/dist_pred, 0, 0]`. -/
noncomputable def measH (px py : ℝ) (fs : List Sensor) :
    Matrix (Fin fs.length) (Fin 4) ℝ :=
  Matrix.of fun i j =>
    if j = 0 then (px - sensorSx (fs.get i)) / distPred px py (fs.get i)
    else if j = 1 then (py - sensorSy (fs.get i)) / distPred px py (fs.get i)
    else 0

/-- The measurement noise `R = MEASUREMENT_STDDEV^2 * I` of `Ekf::update`. -/
noncomputable def measR (n : ℕ) : Matrix (Fin n) (Fin n) ℝ :=
  Matrix.diagonal fun _ => MEASUREMENT_STDDEV ^ 2

/-- The innovation covariance `S = H * P_pred * Hᵀ + R` of `Ekf::update`. -/
noncomputable def measS (P_pred : Matrix (Fin 4) (Fin 4) ℝ) (px py : ℝ)
    (fs : List Sensor) : Matrix (Fin fs.length) (Fin fs.length) ℝ :=
  measH px py fs * P_pred * (measH px py fs)ᵀ + measR fs.length

open Classical in
/-- `nalgebra`'s `try_inverse`: `Some` of the inverse exactly when the
matrix is invertible, `None` otherwise. -/
noncomputable def tryInverse (n : ℕ) (M : Matrix (Fin n) (Fin n) ℝ) :
    Option (Matrix (Fin n) (Fin n) ℝ) :=
  if IsUnit M.det then some M⁻¹ else none

/-- `Ekf::update` from `ekf.rs`. -/
noncomputable def Ekf.update (e : Ekf) (x_pred : Fin 4 → ℝ)
    (P_pred : Matrix (Fin 4) (Fin 4) ℝ) (sensors : List Sensor) : Ekf :=
  let fs := admissibleFilter e.max_dist sensors
  if fs.length < 3 then { e with x_est := x_pred, P_est := P_pred }
  else
    let px := x_pred 0
    let py := x_pred 1
    match tryInverse fs.length (measS P_pred px py fs) with
    | some S_inv =>
      let K : Matrix (Fin 4) (Fin fs.length) ℝ :=
        P_pred * (measH px py fs)ᵀ * S_inv
      let y : Fin fs.length → ℝ := measZ fs - measHx px py fs
      { e with x_est := x_pred + K.mulVec y,
               P_est := (1 - K * measH px py fs) * P_pred }
    | none => { e with x_est := x_pred, P_est := P_pred }

/-- A model of an `f64` value as stored in the sensor registry: either a
finite real number or one of the non-finite IEEE values.  Only the
latitude/longitude fields need this distinction, because the eviction
predicate in `processor.rs` calls `is_finite` on them. -/
inductive F64 where
  | fin : ℝ → F64
  | posInf : F64
  | negInf : F64
  | nan : F64

/-- Rust's `f64::is_finite`. -/
def F64.isFinite : F64 → Bool
  | .fin _ => true
  | _ => false

/-- `geoconv::Lle<Wgs84>`: latitude and longitude in degrees, elevation in
meters.  Latitude/longitude keep the `F64` representation they had in the
registry. -/
structure Lle where
  lat : F64
  lon : F64
  elev : ℝ

/-- `Module` from `processor.rs`: the latest report of one sensor. The
receipt instant `updated` is modelled as a monotonic timestamp in
milliseconds. -/
structure Module where
  lat : F64
  lon : F64
  alt : ℝ
  drone : Bool
  dist : ℝ
  updated : ℕ

/-- The sensor registry: the `HashMap<String, Module>` of `processor.rs`,
modelled as an association list with unique keys, listed in iteration
order. -/
abbrev Registry := List (String × Module)

/-- `HashMap::insert`: replace the entry of an existing key, otherwise
append a new entry. -/
def insertReg (reg : Registry) (k : String) (m : Module) : Registry :=
  if (List.any reg fun p => p.1 = k) then
    List.map (fun p => if p.1 = k then (k, m) else p) reg
  else reg ++ [(k, m)]

/-- The `retain` closure of the fusion loop in `processor.rs`:
`m.updated.elapsed() < Duration::from_millis(250) && m.lon.is_finite() && m.lat.is_finite()`. -/
def retainFresh (now : ℕ) (m : Module) : Bool :=
  decide (now - m.updated < 250) && m.lon.isFinite && m.lat.isFinite

/-- The freshness eviction run at the start of every fusion tick
(`lock.retain(...)` in `processor.rs`). -/
def evictRegistry (now : ℕ) (reg : Registry) : Registry :=
  List.filter (fun p => retainFresh now p.2) reg

/-- Splitting a character list at every occurrence of a separator, the
semantics of Rust's `text.split("|")` for a one-character pattern:
`""` gives one empty field, separators at the ends give empty fields. -/
def splitOnChar (sep : Char) : List Char → List (List Char)
  | [] => [[]]
  | c :: rest =>
    match splitOnChar sep rest with
    | [] => [[]]
    | f :: fs => if c = sep then [] :: f :: fs else (c :: f) :: fs

/-- The numeric value of an ASCII digit, `none` on any other character. -/
def charDigit (c : Char) : Option ℕ :=
  if c.isDigit then some (c.toNat - 48) else none

/-- Accumulates a digit run; fails on the first non-digit character. -/
def natOfDigitsAux (acc : ℕ) : List Char → Option ℕ
  | [] => some acc
  | c :: rest =>
    match charDigit c with
    | some d => natOfDigitsAux (acc * 10 + d) rest
    | none => none

/-- A non-empty all-digit run parsed as a natural number. -/
def parseNatDigits (cs : List Char) : Option ℕ :=
  if cs.isEmpty then none else natOfDigitsAux 0 cs

/-- The significand of Rust's `f64::from_str` grammar:
`Digits '.' [Digits] | '.' Digits | Digits`, valued in `ℚ`.  (The textual
special values `inf`/`infinity`/`NaN` are not modelled; no claim depends
on them.) -/
def parseSig (cs : List Char) : Option ℚ :=
  match splitOnChar '.' cs with
  | [ip] => (parseNatDigits ip).map fun n => (n : ℚ)
  | [ip, fp] =>
    if ip.isEmpty && fp.isEmpty then none
    else
      match natOfDigitsAux 0 (ip ++ fp) with
      | some n => some ((n : ℚ) / 10 ^ fp.length)
      | none => none
  | _ => none

/-- An unsigned number of Rust's `f64::from_str` grammar: a significand
with an optional `e`/`E` exponent. -/
def parseUnsigned (cs : List Char) : Option ℚ :=
  match cs.span fun c => !(c = 'e' || c = 'E') with
  | (m, []) => parseSig m
  | (m, _ :: ex) =>
    (parseSig m).bind fun v =>
      match ex with
      | '+' :: r => (parseNatDigits r).map fun e => v * 10 ^ e
      | '-' :: r => (parseNatDigits r).map fun e => v / 10 ^ e
      | r => (parseNatDigits r).map fun e => v * 10 ^ e

/-- Rust's `str::parse::<f64>()` on the decimal fragment of its grammar:
an optional sign followed by an unsigned number. -/
def parseF64 (cs : List Char) : Option ℚ :=
  match cs with
  | '+' :: r => parseUnsigned r
  | '-' :: r => (parseUnsigned r).map Neg.neg
  | r => parseUnsigned r

/-- Rust's `str::parse::<bool>()`: exactly the literal tokens
`true` and `false`. -/
def parseBool (cs : List Char) : Option Bool :=
  match cs with
  | ['t', 'r', 'u', 'e'] => some true
  | ['f', 'a', 'l', 's', 'e'] => some false
  | _ => none

/-- One text message processed by the ingress handler of `processor.rs`
(`run`, connection loop body): split on `|`, take fields 0..5, parse
lat/lon/dist as `f64` and the flag as `bool` — each step with `.unwrap()`
(or a panicking index) in the source — and insert the resulting `Module`
with `updated = now`.  `none` models a panic of the connection handler
thread (index out of bounds or a failed `unwrap`). -/
noncomputable def handleIngress (reg : Registry) (text : String) (now : ℕ) :
    Option Registry :=
  let fields := splitOnChar '|' text.data
  match fields.get? 0, fields.get? 1, fields.get? 2, fields.get? 3,
      fields.get? 4, fields.get? 5 with
  | some mac, some _ip, some flat, some flon, some fdrone, some fdist =>
    match parseF64 flat, parseF64 flon, parseBool fdrone, parseF64 fdist with
    | some lat, some lon, some drone, some dist =>
      some (insertReg reg (String.mk mac)
        { lat := F64.fin (lat : ℝ), lon := F64.fin (lon : ℝ), alt := 0,
          drone := drone, dist := (dist : ℝ), updated := now })
    | _, _, _, _ => none
  | _, _, _, _, _, _ => none

/-- The state owned by the fusion-loop thread of `processor.rs`:
the session reference LLA and the filter. -/
structure TickState where
  ref_lle : Option Lle
  ekf : Ekf

/-- The result of one fusion tick: the new thread state, the snapshot the
tick worked on (which is also the registry content after eviction), and
the estimate sent to the egress socket, if any, as the `(lon, lat)` pair
of the formatted message. -/
structure TickResult where
  st : TickState
  snapshot : Registry
  published : Option (F64 × F64)

/-- A placeholder `Lle` standing for the `ref_lle.as_ref().unwrap()` in
`processor.rs`; it is only ever read on paths where the reference is
already set. -/
def defaultLle : Lle := { lat := F64.nan, lon := F64.nan, elev := 0 }

/-- One iteration of the fusion loop of `processor.rs` (`run`, inner
`loop`), with the external geodetic conversions `geo`
(`CoordinateSystem::lle_to_enu`) and `geoInv`
(`CoordinateSystem::enu_to_lle`) passed as parameters.  In source order:
set the session reference from the first registry value if unset (this
happens before eviction), evict stale entries, snapshot, test detection,
and if at least 3 modules remain run predict(0.05) + update and publish
`(lon, lat)`. -/
noncomputable def fusionTick (geo : Lle → Lle → Enu) (geoInv : Lle → Enu → Lle)
    (st : TickState) (reg : Registry) (now : ℕ) : TickResult :=
  let ref' : Option Lle :=
    match st.ref_lle with
    | some r => some r
    | none =>
      match reg.head? with
      | some km => some { lat := km.2.lat, lon := km.2.lon, elev := 0 }
      | none => none
  let snapshot := evictRegistry now reg
  let detection := List.any snapshot fun km => km.2.drone
  if detection then
    if snapshot.length < 3 then
      { st := { ref_lle := ref', ekf := st.ekf }, snapshot := snapshot,
        published := none }
    else
      let r := ref'.getD defaultLle
      let sensors : List Sensor := List.map (fun km =>
        { enu := geo { lat := km.2.lat, lon := km.2.lon, elev := 0 } r,
          dist := km.2.dist }) snapshot
      let pred := st.ekf.predict 0.05
      let ekf' := st.ekf.update pred.1 pred.2 sensors
      let outEnu : Enu := { east := ekf'.x_est 0, north := ekf'.x_est 1, up := 0 }
      let outLle := geoInv r outEnu
      { st := { ref_lle := ref', ekf := ekf' }, snapshot := snapshot,
        published := some (outLle.lon, outLle.lat) }
  else
    { st := { ref_lle := ref', ekf := st.ekf }, snapshot := snapshot,
      published := none }

/-! Concrete inputs used by witnesses and counterexamples. -/

/-- A sensor at the ENU origin reporting range 100. -/
noncomputable def sOrigin100 : Sensor := { enu := { east := 0, north := 0, up := 0 }, dist := 100 }

/-- A sensor reporting range 120. -/
noncomputable def sOne120 : Sensor := { enu := { east := 1, north := 1, up := 0 }, dist := 120 }

/-- A sensor at the ENU origin reporting range 1; three copies of it make
the admissible list of the singular-innovation witness. -/
noncomputable def wSensor : Sensor := { enu := { east := 0, north := 0, up := 0 }, dist := 1 }

/-- Three admissible sensors at the same spot. -/
noncomputable def wSensors : List Sensor := [wSensor, wSensor, wSensor]

/-- A predicted state at `(1, 0)` with zero velocity. -/
noncomputable def wXpred : Fin 4 → ℝ := ![1, 0, 0, 0]

/-- A predicted covariance whose only nonzero entry is
`P[0,0] = -2500/3`; it makes the innovation covariance
`S = H·P·Hᵀ + 2500·I` singular for the three identical sensors. -/
noncomputable def wP : Matrix (Fin 4) (Fin 4) ℝ :=
  Matrix.of ![![-2500 / 3, 0, 0, 0], ![0, 0, 0, 0], ![0, 0, 0, 0], ![0, 0, 0, 0]]

/-- A sensor with ENU east 3, north 0; distinguishes the negated from the
unnegated sign convention when the predicted position is `(1, 0)`. -/
noncomputable def cSensor : Sensor := { enu := { east := 3, north := 0, up := 0 }, dist := 1 }

/-- A registry entry last updated at time 0 (stale at time 300). -/
noncomputable def staleModule : Module :=
  { lat := F64.fin 1, lon := F64.fin 2, alt := 0, drone := false, dist := 5, updated := 0 }

/-- A fresh registry entry with `is_target_source = false`. -/
noncomputable def freshModule : Module :=
  { lat := F64.fin 1, lon := F64.fin 2, alt := 0, drone := false, dist := 5, updated := 0 }

/-- A trivial stand-in for the external `lle_to_enu`. -/
def geoZero : Lle → Lle → Enu := fun _ _ => { east := 0, north := 0, up := 0 }

/-- A trivial stand-in for the external `enu_to_lle`. -/
def geoInvZero : Lle → Enu → Lle := fun _ _ => defaultLle

/-- An ingress message whose `lat` field is not numeric. -/
def badMsg : String := "aa:bb|10.0.0.1|x|16.5|true|120.5"

/-- A well-formed ingress message with seven fields. -/
def extraMsg : String := "aa:bb|10.0.0.1|52.5|16.5|true|120.5|junk"

/-! Helper lemmas. -/

theorem admissibleFilter_nil (md : Option ℝ) : admissibleFilter md [] = [] := rfl

theorem admissibleFilter_cons_pos (md : Option ℝ) (s : Sensor) (l : List Sensor)
    (h : admissible md s) :
    admissibleFilter md (s :: l) = s :: admissibleFilter md l := by
  simp [admissibleFilter, List.filter_cons, h]

theorem admissibleFilter_cons_neg (md : Option ℝ) (s : Sensor) (l : List Sensor)
    (h : ¬ admissible md s) :
    admissibleFilter md (s :: l) = admissibleFilter md l := by
  simp [admissibleFilter, List.filter_cons, h]

/-! Claim theorems. -/

/-- Claim C1: for every call to `Ekf::update` whose sensor list keeps fewer
than 3 admissible sensors (`dist > 0` and, when `max_dist` is `some c`,
`dist ≤ c`), the filter commits the prediction unchanged: afterwards
`x_est = x_pred` and `P_est = P_pred` exactly. -/
theorem update_shortfall_commits_prediction (e : Ekf) (x_pred : Fin 4 → ℝ)
    (P_pred : Matrix (Fin 4) (Fin 4) ℝ) (sensors : List Sensor)
    (h : (admissibleFilter e.max_dist sensors).length < 3) :
    (e.update x_pred P_pred sensors).x_est = x_pred ∧
    (e.update x_pred P_pred sensors).P_est = P_pred := by
  unfold Ekf.update
  simp [h]

/-- Witness for C1: a concrete update with only two sensors (ranges 100
and 120) commits the prediction bitwise. -/
theorem update_shortfall_commits_prediction_witness :
    (admissibleFilter (Ekf.new 0 0 none).max_dist [sOrigin100, sOne120]).length < 3 ∧
    ((Ekf.new 0 0 none).update wXpred wP [sOrigin100, sOne120]).x_est = wXpred ∧
    ((Ekf.new 0 0 none).update wXpred wP [sOrigin100, sOne120]).P_est = wP := by
  have h : (admissibleFilter (Ekf.new 0 0 none).max_dist [sOrigin100, sOne120]).length < 3 := by
    rw [show (Ekf.new 0 0 none).max_dist = none from rfl]
    rw [admissibleFilter_cons_pos _ _ _ ⟨by norm_num [sOrigin100], by simp⟩,
      admissibleFilter_cons_pos _ _ _ ⟨by norm_num [sOne120], by simp⟩,
      admissibleFilter_nil]
    norm_num
  exact ⟨h, (update_shortfall_commits_prediction _ _ _ _ h).1,
    (update_shortfall_commits_prediction _ _ _ _ h).2⟩

/-- Claim C9: `Ekf::update` only ever changes the `x_est` and `P_est`
fields; `F`, `Q` and `max_dist` are unchanged by every call. -/
theorem update_frame_only_estimates (e : Ekf) (x_pred : Fin 4 → ℝ)
    (P_pred : Matrix (Fin 4) (Fin 4) ℝ) (sensors : List Sensor) :
    (e.update x_pred P_pred sensors).F = e.F ∧
    (e.update x_pred P_pred sensors).Q = e.Q ∧
    (e.update x_pred P_pred sensors).max_dist = e.max_dist := by
  unfold Ekf.update
  dsimp only
  split
  · exact ⟨rfl, rfl, rfl⟩
  · split
    · exact ⟨rfl, rfl, rfl⟩
    · exact ⟨rfl, rfl, rfl⟩

/-- Claim C5: the eviction run at the start of every fusion tick retains
exactly the fresh entries: an entry stays iff it was in the registry,
`now - updated < 250` milliseconds, and both longitude and latitude are
finite. -/
theorem eviction_exactly_fresh (now : ℕ) (reg : Registry) (p : String × Module) :
    p ∈ evictRegistry now reg ↔
      p ∈ reg ∧ now - p.2.updated < 250 ∧
        p.2.lon.isFinite = true ∧ p.2.lat.isFinite = true := by
  simp [evictRegistry, retainFresh, List.mem_filter, and_assoc]

/-- Claim C2 (code evaluated at the failing input): an ingress message
whose `lat` field is non-numeric makes the connection handler panic on
`unwrap` — modelled as `none` — instead of dropping the message and
continuing. -/
theorem ingress_parse_failure_panics :
    handleIngress [] badMsg 0 = none := by
  rfl

/-- Claim C10: an ingress message with more than six pipe-delimited fields
whose first six fields parse correctly is not rejected: the report built
from the first six fields is inserted and the extra fields are ignored. -/
theorem ingress_extra_fields_inserted (reg : Registry) (text : String) (now : ℕ)
    (f0 f1 f2 f3 f4 f5 : List Char) (rest : List (List Char))
    (hsplit : splitOnChar '|' text.data = f0 :: f1 :: f2 :: f3 :: f4 :: f5 :: rest)
    (_hrest : rest ≠ [])
    (lat lon dist : ℚ) (drone : Bool)
    (hlat : parseF64 f2 = some lat) (hlon : parseF64 f3 = some lon)
    (hdrone : parseBool f4 = some drone) (hdist : parseF64 f5 = some dist) :
    handleIngress reg text now = some (insertReg reg (String.mk f0)
      { lat := F64.fin (lat : ℝ), lon := F64.fin (lon : ℝ), alt := 0,
        drone := drone, dist := (dist : ℝ), updated := now }) := by
  unfold handleIngress
  rw [hsplit]
  simp [hlat, hlon, hdrone, hdist]

/-- Witness for C10: a concrete seven-field message is inserted from its
first six fields. -/
theorem ingress_extra_fields_inserted_witness :
    handleIngress [] extraMsg 7 = some (insertReg [] (String.mk
        ['a', 'a', ':', 'b', 'b'])
      { lat := F64.fin ((105 / 2 : ℚ) : ℝ), lon := F64.fin ((33 / 2 : ℚ) : ℝ),
        alt := 0, drone := true, dist := ((241 / 2 : ℚ) : ℝ), updated := 7 }) :=
  ingress_extra_fields_inserted [] extraMsg 7
    ['a', 'a', ':', 'b', 'b'] ['1', '0', '.', '0', '.', '0', '.', '1']
    ['5', '2', '.', '5'] ['1', '6', '.', '5'] ['t', 'r', 'u', 'e']
    ['1', '2', '0', '.', '5'] [['j', 'u', 'n', 'k']]
    (by decide) (by decide) (105 / 2) (33 / 2) (241 / 2) true
    (by simp [parseF64, parseUnsigned, parseSig, parseNatDigits, natOfDigitsAux,
      charDigit, splitOnChar, List.span, List.span.loop]; norm_num)
    (by simp [parseF64, parseUnsigned, parseSig, parseNatDigits, natOfDigitsAux,
      charDigit, splitOnChar, List.span, List.span.loop]; norm_num)
    (by decide)
    (by simp [parseF64, parseUnsigned, parseSig, parseNatDigits, natOfDigitsAux,
      charDigit, splitOnChar, List.span, List.span.loop]; norm_num)

/-- Claim C3: for every filter whose factories are the ones installed by
`Ekf::new`, `predict dt` returns exactly
`(F(dt)·x, F(dt)·P·F(dt)ᵀ + Q(dt))` with the constant-velocity transition
matrix and `Q(dt) = diag(q_p, q_p, q_v, q_v)`, `q_p = (5·dt²/2)²`,
`q_v = (5·dt)²`; being a plain function of the state it mutates nothing. -/
theorem predict_matches_spec (e : Ekf) (dt : ℝ) (hF : e.F = cvF) (hQ : e.Q = cvQ) :
    e.predict dt =
      ((Matrix.of ![![1, 0, dt, 0], ![0, 1, 0, dt], ![0, 0, 1, 0],
          ![0, 0, 0, 1]]).mulVec e.x_est,
        Matrix.of ![![1, 0, dt, 0], ![0, 1, 0, dt], ![0, 0, 1, 0], ![0, 0, 0, 1]] *
            e.P_est *
            (Matrix.of ![![1, 0, dt, 0], ![0, 1, 0, dt], ![0, 0, 1, 0],
              ![0, 0, 0, 1]])ᵀ +
          Matrix.diagonal ![(5 * dt ^ 2 / 2) ^ 2, (5 * dt ^ 2 / 2) ^ 2,
            (5 * dt) ^ 2, (5 * dt) ^ 2]) := by
  have hq : cvQ dt = Matrix.diagonal ![(5 * dt ^ 2 / 2) ^ 2, (5 * dt ^ 2 / 2) ^ 2,
      (5 * dt) ^ 2, (5 * dt) ^ 2] := by
    unfold cvQ PROCESS_NOISE_STDDEV
    funext i
    fin_cases i <;> simp <;> ring_nf
  unfold Ekf.predict
  rw [hF, hQ, hq]
  rfl

/-- Witness for C3: the theorem evaluated on the freshly constructed
filter at `dt = 1`. -/
theorem predict_matches_spec_witness :
    (Ekf.new 0 0 none).predict 1 =
      ((Matrix.of ![![1, 0, (1 : ℝ), 0], ![0, 1, 0, 1], ![0, 0, 1, 0],
          ![0, 0, 0, 1]]).mulVec (Ekf.new 0 0 none).x_est,
        Matrix.of ![![1, 0, (1 : ℝ), 0], ![0, 1, 0, 1], ![0, 0, 1, 0],
            ![0, 0, 0, 1]] *
            (Ekf.new 0 0 none).P_est *
            (Matrix.of ![![1, 0, (1 : ℝ), 0], ![0, 1, 0, 1], ![0, 0, 1, 0],
              ![0, 0, 0, 1]])ᵀ +
          Matrix.diagonal ![(5 * (1 : ℝ) ^ 2 / 2) ^ 2, (5 * (1 : ℝ) ^ 2 / 2) ^ 2,
            (5 * (1 : ℝ)) ^ 2, (5 * (1 : ℝ)) ^ 2]) :=
  predict_matches_spec (Ekf.new 0 0 none) 1 rfl rfl

/-- Claim C8: on a fusion tick whose post-eviction snapshot has no report
with `is_target_source = true`, the filter is not run and nothing is
published: the tick's filter state is the incoming one, bitwise. -/
theorem no_detection_skips_filter (geo : Lle → Lle → Enu) (geoInv : Lle → Enu → Lle)
    (st : TickState) (reg : Registry) (now : ℕ)
    (h : ∀ p ∈ evictRegistry now reg, p.2.drone = false) :
    (fusionTick geo geoInv st reg now).st.ekf = st.ekf ∧
    (fusionTick geo geoInv st reg now).published = none := by
  have hdet : List.any (evictRegistry now reg) (fun km => km.2.drone) = false := by
    rw [List.any_eq_false]
    intro p hp
    simp [h p hp]
  unfold fusionTick
  dsimp only
  rw [hdet]
  exact ⟨rfl, rfl⟩

/-- Witness for C8: a tick over a single fresh non-source report leaves
the filter untouched and publishes nothing. -/
theorem no_detection_skips_filter_witness :
    (∀ p ∈ evictRegistry 0 [("a", freshModule)], p.2.drone = false) ∧
    (fusionTick geoZero geoInvZero { ref_lle := none, ekf := Ekf.new 0 0 none }
        [("a", freshModule)] 0).st.ekf = Ekf.new 0 0 none ∧
    (fusionTick geoZero geoInvZero { ref_lle := none, ekf := Ekf.new 0 0 none }
        [("a", freshModule)] 0).published = none := by
  have h : ∀ p ∈ evictRegistry 0 [("a", freshModule)], p.2.drone = false := by
    intro p hp
    simp [evictRegistry, retainFresh, freshModule, F64.isFinite,
      List.mem_filter] at hp
    subst hp
    rfl
  exact ⟨h, (no_detection_skips_filter geoZero geoInvZero _ _ _ h).1,
    (no_detection_skips_filter geoZero geoInvZero _ _ _ h).2⟩

/-- Counterexample to C6: with an unset reference and a registry holding
one stale entry (updated 300 ms ago), the tick assigns the reference from
that entry although the post-eviction snapshot is empty — so the
reference is not taken from a fresh sensor of a non-empty post-eviction
snapshot, contrary to the claim. -/
theorem ref_lle_counterexample :
    (fusionTick geoZero geoInvZero { ref_lle := none, ekf := Ekf.new 0 0 none }
        [("a", staleModule)] 300).st.ref_lle =
      some { lat := F64.fin 1, lon := F64.fin 2, elev := 0 } ∧
    evictRegistry 300 [("a", staleModule)] = [] := by
  constructor
  · unfold fusionTick
    simp [evictRegistry, retainFresh, staleModule]
  · simp [evictRegistry, retainFresh, staleModule]

/-- Amended C6: the session reference is assigned at most once, but from
the pre-eviction registry: if it is already set the tick keeps it
unchanged, and if it is unset it becomes the lat/lon (at elevation 0) of
the first registry entry — fresh or not — when one exists, `none`
otherwise. -/
theorem ref_lle_amended (geo : Lle → Lle → Enu) (geoInv : Lle → Enu → Lle)
    (st : TickState) (reg : Registry) (now : ℕ) :
    (fusionTick geo geoInv st reg now).st.ref_lle =
      match st.ref_lle with
      | some r => some r
      | none => Option.map
          (fun km => { lat := km.2.lat, lon := km.2.lon, elev := 0 }) reg.head? := by
  rcases st with ⟨rl, ek⟩
  unfold fusionTick
  rcases rl with _ | r <;> rcases reg with _ | ⟨km, rest⟩ <;> dsimp only <;>
    split <;> first
      | rfl
      | (split <;> rfl)

/-- Counterexample to C7: with predicted position `(1, 0)` and a sensor at
ENU east 3, north 0, the measurement model evaluates the range at the
negated sensor position, giving 4; the unnegated convention claimed by
the spec gives 2. -/
theorem enu_sign_counterexample :
    distPred 1 0 cSensor = 4 ∧
    max (Real.sqrt ((1 - cSensor.enu.east) ^ 2 + (0 - cSensor.enu.north) ^ 2))
      (1e-6) = 2 ∧
    (4 : ℝ) ≠ 2 := by
  refine ⟨?_, ?_, by norm_num⟩
  · have h1 : ((1 : ℝ) - sensorSx cSensor) ^ 2 + ((0 : ℝ) - sensorSy cSensor) ^ 2
        = 4 ^ 2 := by
      norm_num [sensorSx, sensorSy, cSensor]
    unfold distPred
    rw [h1, Real.sqrt_sq (by norm_num)]
    exact max_eq_left (by norm_num)
  · have h2 : ((1 : ℝ) - cSensor.enu.east) ^ 2 + ((0 : ℝ) - cSensor.enu.north) ^ 2
        = 2 ^ 2 := by
      norm_num [cSensor]
    rw [h2, Real.sqrt_sq (by norm_num)]
    exact max_eq_left (by norm_num)

/-- Amended C7: in the online path the sensor position entering the
measurement model `h_i` is the negated ENU of the sensor:
`sx = -east`, `sy = -north`, so the predicted range is
`max (√((px + east)² + (py + north)²)) 1e-6`. -/
theorem enu_sign_amended (px py : ℝ) (s : Sensor) :
    distPred px py s =
      max (Real.sqrt ((px + s.enu.east) ^ 2 + (py + s.enu.north) ^ 2)) (1e-6) ∧
    sensorSx s = -s.enu.east ∧ sensorSy s = -s.enu.north := by
  refine ⟨?_, rfl, rfl⟩
  unfold distPred sensorSx sensorSy
  rw [sub_neg_eq_add, sub_neg_eq_add]

/-- Claim C4: when at least 3 admissible sensors remain but the innovation
covariance `S = H·P̂·Hᵀ + R` cannot be inverted (`try_inverse` fails),
`Ekf::update` commits the prediction unchanged and returns.  (In this
real-valued model the IEEE non-finite values do not arise, so inversion
failure is the only degenerate case.) -/
theorem update_singular_commits_prediction (e : Ekf) (x_pred : Fin 4 → ℝ)
    (P_pred : Matrix (Fin 4) (Fin 4) ℝ) (sensors : List Sensor)
    (h3 : ¬ (admissibleFilter e.max_dist sensors).length < 3)
    (hS : tryInverse (admissibleFilter e.max_dist sensors).length
      (measS P_pred (x_pred 0) (x_pred 1)
        (admissibleFilter e.max_dist sensors)) = none) :
    (e.update x_pred P_pred sensors).x_est = x_pred ∧
    (e.update x_pred P_pred sensors).P_est = P_pred := by
  unfold Ekf.update
  dsimp only
  rw [if_neg h3, hS]
  exact ⟨rfl, rfl⟩

theorem wSensor_admissible : admissible none wSensor :=
  ⟨by norm_num [wSensor], by simp⟩

theorem wFilter : admissibleFilter none wSensors = wSensors := by
  unfold wSensors
  rw [admissibleFilter_cons_pos _ _ _ wSensor_admissible,
    admissibleFilter_cons_pos _ _ _ wSensor_admissible,
    admissibleFilter_cons_pos _ _ _ wSensor_admissible, admissibleFilter_nil]

theorem wGet (i : Fin wSensors.length) : wSensors.get i = wSensor := by
  have h : wSensors.get i ∈ wSensors := wSensors.get_mem i.1 i.2
  simp only [wSensors, List.mem_cons, List.not_mem_nil, or_false] at h
  rcases h with h | h | h <;> exact h

theorem wDist : distPred 1 0 wSensor = 1 := by
  have h1 : ((1 : ℝ) - sensorSx wSensor) ^ 2 + ((0 : ℝ) - sensorSy wSensor) ^ 2
      = 1 := by
    norm_num [sensorSx, sensorSy, wSensor]
  unfold distPred
  rw [h1, Real.sqrt_one]
  exact max_eq_left (by norm_num)

theorem wHentry (a : Fin 3) (b : Fin 4) :
    measH 1 0 wSensors a b = if b = 0 then 1 else 0 := by
  unfold measH
  rw [Matrix.of_apply, wGet a, wDist]
  fin_cases b <;> norm_num [sensorSx, sensorSy, wSensor]

theorem wSentry (i j : Fin 3) :
    measS wP 1 0 wSensors i j = if i = j then (5000 / 3 : ℝ) else -2500 / 3 := by
  unfold measS
  rw [Matrix.add_apply, Matrix.mul_apply]
  have hA : ∀ k : Fin 4, (measH 1 0 wSensors * wP) i k
      = if k = 0 then (-2500 / 3 : ℝ) else 0 := by
    intro k
    rw [Matrix.mul_apply]
    simp only [wHentry]
    fin_cases k <;>
      simp [Fin.sum_univ_four, wP, Matrix.cons_val_zero, Matrix.cons_val_one,
        Matrix.head_cons]
  simp only [Matrix.transpose_apply, hA, wHentry]
  by_cases hij : i = j <;>
    simp [hij, Fin.sum_univ_four, measR, Matrix.diagonal_apply,
      MEASUREMENT_STDDEV] <;> norm_num

theorem wSdet : (show Matrix (Fin 3) (Fin 3) ℝ from measS wP 1 0 wSensors).det
    = 0 := by
  rw [Matrix.det_fin_three]
  simp [wSentry]
  norm_num

theorem wTryInverse : tryInverse wSensors.length (measS wP 1 0 wSensors)
    = none := by
  have hns : ¬ IsUnit (Matrix.det (measS wP 1 0 wSensors)) := by
    intro hu
    have hu3 : IsUnit (show Matrix (Fin 3) (Fin 3) ℝ from
        measS wP 1 0 wSensors).det := hu
    rw [wSdet] at hu3
    exact not_isUnit_zero hu3
  unfold tryInverse
  rw [if_neg hns]

/-- Witness for C4: a concrete update with three admissible sensors and a
covariance making `S` singular commits the prediction. -/
theorem update_singular_commits_prediction_witness :
    (¬ (admissibleFilter (Ekf.new 0 0 none).max_dist wSensors).length < 3) ∧
    tryInverse (admissibleFilter (Ekf.new 0 0 none).max_dist wSensors).length
      (measS wP (wXpred 0) (wXpred 1)
        (admissibleFilter (Ekf.new 0 0 none).max_dist wSensors)) = none ∧
    ((Ekf.new 0 0 none).update wXpred wP wSensors).x_est = wXpred ∧
    ((Ekf.new 0 0 none).update wXpred wP wSensors).P_est = wP := by
  have hf : admissibleFilter (Ekf.new 0 0 none).max_dist wSensors = wSensors := by
    rw [show (Ekf.new 0 0 none).max_dist = none from rfl, wFilter]
  have h3 : ¬ (admissibleFilter (Ekf.new 0 0 none).max_dist wSensors).length
      < 3 := by
    rw [hf]
    norm_num [wSensors]
  have hS : tryInverse (admissibleFilter (Ekf.new 0 0 none).max_dist wSensors).length
      (measS wP (wXpred 0) (wXpred 1)
        (admissibleFilter (Ekf.new 0 0 none).max_dist wSensors)) = none := by
    rw [hf, show wXpred 0 = 1 from rfl, show wXpred 1 = 0 from rfl]
    exact wTryInverse
  exact ⟨h3, hS, (update_singular_commits_prediction _ _ _ _ h3 hS).1,
    (update_singular_commits_prediction _ _ _ _ h3 hS).2⟩

end Drone
